import Mathlib

/-!
Verification of the Green-Cart-Logistics delivery simulation engine
(`src/backend/routes/simulation.js`) against its specification.

The engine is embedded shallowly: JavaScript numbers become `ℚ` (all the
arithmetic the engine performs — multiplication by small constants, division
by 0.7 or 1.0, `Math.round` — is exact rational arithmetic on the value
ranges the validators admit), Mongo documents become structures, and the
per-order `Math.random()` driver pick becomes an explicit oracle
`picks : ℕ → ℕ` giving the raw index choice for the i-th processed order
(reduced modulo the driver count, as `Math.floor(Math.random()*len)` always
lands in `[0, len)`).
-/

namespace GreenCart

/-- `traffic_level` of a Route: enum `['Low', 'Medium', 'High']`. -/
inductive TrafficLevel where
  | Low
  | Medium
  | High
deriving DecidableEq, Repr

/-- A Driver document (`backend/models/Driver.js`): name, nominal daily
`shift_hours`, and `past_week_hours`, the hours worked on each of the 7 most
recent days (last entry = yesterday). -/
structure Driver where
  name : String
  shift_hours : ℚ
  past_week_hours : List ℚ
deriving DecidableEq, Repr, Inhabited

/-- A Route document (`backend/models/Route.js`). -/
structure Route where
  route_id : ℕ
  distance : ℚ
  traffic_level : TrafficLevel
  base_time : ℚ
deriving DecidableEq, Repr

/-- An Order document (`backend/models/Order.js`). -/
structure Order where
  order_id : ℕ
  value_rs : ℚ
  route_id : ℕ
  delivery_time : String
deriving DecidableEq, Repr

/-- The run parameters taken from the POST body
`{available_drivers, start_time, max_hours_per_day}`. -/
structure SimParams where
  available_drivers : ℤ
  start_time : String
  max_hours_per_day : ℤ
deriving DecidableEq, Repr

/-- `fuel_cost_breakdown` of a SimulationResult. -/
structure FuelCostBreakdown where
  base_cost : ℤ
  surcharge : ℤ
  total : ℤ
deriving DecidableEq, Repr

/-- A SimulationResult (`backend/models/SimulationResult.js`), minus the
wall-clock `timestamp`, which the embedding leaves out. -/
structure SimulationResult where
  total_profit : ℤ
  efficiency_score : ℚ
  on_time_deliveries : ℕ
  late_deliveries : ℕ
  fuel_cost_breakdown : FuelCostBreakdown
  simulation_params : SimParams
deriving DecidableEq, Repr

/-- JavaScript `Math.round`: round half toward positive infinity,
`Math.round x = ⌊x + 1/2⌋`. -/
def jsRound (x : ℚ) : ℤ := ⌊x + 1/2⌋

/-- `timeToMinutes` (`simulation.js` line 19): split on `:`, convert the two
components to numbers, return `hours * 60 + minutes`.  (The engine computes
this on `order.delivery_time` but never uses the value; malformed strings,
which would yield `NaN` in JavaScript, are mapped to component value 0.) -/
def timeToMinutes (s : String) : ℚ :=
  match (s.splitOn ":").map (fun t => ((t.toNat?).getD 0 : ℚ)) with
  | h :: m :: _ => h * 60 + m
  | [h] => h * 60
  | [] => 0

/-- The `routeMap` lookup built at `simulation.js` lines 45-48: JavaScript
object assignment in route order means the LAST route with a given
`route_id` wins, hence the lookup searches the reversed list. -/
def routeLookup (routes : List Route) (rid : ℕ) : Option Route :=
  routes.reverse.find? (fun r => r.route_id == rid)

/-- The `driverFatigue` factor (`simulation.js` lines 59-63): 0.7 if the
driver's last `past_week_hours` entry exceeds 8, else 1.0.  (An empty array
gives `undefined > 8 = false` in JavaScript, i.e. multiplier 1.0, matching
`getLastD 0`.) -/
def fatigueMultiplier (d : Driver) : ℚ :=
  if d.past_week_hours.getLastD 0 > 8 then 7/10 else 1

/-- Accumulator state of the order loop (`simulation.js` lines 51-55), plus
`pickIdx`, the count of `Math.random()` draws made so far (one per
processed order). -/
structure SimAcc where
  totalProfit : ℚ
  onTimeDeliveries : ℕ
  lateDeliveries : ℕ
  totalFuelCost : ℚ
  totalSurcharge : ℚ
  pickIdx : ℕ
deriving DecidableEq, Repr

/-- The body of the order loop (`simulation.js` lines 66-104) for a single
order: skip if the route is unresolvable, otherwise accumulate fuel cost,
pick a random driver, apply fatigue, test on-time, and update profit and
the delivery counters. -/
def processOrder (drivers : List Driver) (routes : List Route) (picks : ℕ → ℕ)
    (acc : SimAcc) (order : Order) : SimAcc :=
  match routeLookup routes order.route_id with
  | none => acc
  | some route =>
    let baseFuelCost := route.distance * 5
    let surcharge := if route.traffic_level = TrafficLevel.High then route.distance * 2 else 0
    let orderFuelCost := baseFuelCost + surcharge
    let _expectedDeliveryMinutes := timeToMinutes order.delivery_time
    let randomDriver := drivers.getD (picks acc.pickIdx % drivers.length) default
    let fm := fatigueMultiplier randomDriver
    let actualDeliveryMinutes := route.base_time / fm
    if actualDeliveryMinutes ≤ route.base_time + 10 then
      { totalProfit := acc.totalProfit
          + (if order.value_rs > 1000 then order.value_rs * (1/10) else 0)
          + (order.value_rs - orderFuelCost)
        onTimeDeliveries := acc.onTimeDeliveries + 1
        lateDeliveries := acc.lateDeliveries
        totalFuelCost := acc.totalFuelCost + baseFuelCost
        totalSurcharge := acc.totalSurcharge + surcharge
        pickIdx := acc.pickIdx + 1 }
    else
      { totalProfit := acc.totalProfit - 50 + (order.value_rs - orderFuelCost)
        onTimeDeliveries := acc.onTimeDeliveries
        lateDeliveries := acc.lateDeliveries + 1
        totalFuelCost := acc.totalFuelCost + baseFuelCost
        totalSurcharge := acc.totalSurcharge + surcharge
        pickIdx := acc.pickIdx + 1 }

/-- `runDeliverySimulation` (`simulation.js` lines 32-123).  The store's
`Driver.find().limit(n)` becomes `allDrivers.take`, the `Math.random()`
draws become the `picks` oracle, and `throw` becomes `Except.error`. -/
def runDeliverySimulation (params : SimParams) (allDrivers : List Driver)
    (routes : List Route) (orders : List Order) (picks : ℕ → ℕ) :
    Except String SimulationResult :=
  let drivers := allDrivers.take params.available_drivers.toNat
  if (drivers.length : ℤ) < params.available_drivers then
    Except.error ("Only " ++ toString drivers.length ++ " drivers available, but "
      ++ toString params.available_drivers ++ " requested")
  else
    let final := orders.foldl (processOrder drivers routes picks)
      { totalProfit := 0, onTimeDeliveries := 0, lateDeliveries := 0,
        totalFuelCost := 0, totalSurcharge := 0, pickIdx := 0 }
    let totalDeliveries := final.onTimeDeliveries + final.lateDeliveries
    let efficiencyScore : ℚ :=
      if totalDeliveries > 0 then ((final.onTimeDeliveries : ℚ) / totalDeliveries) * 100 else 0
    Except.ok
      { total_profit := jsRound final.totalProfit
        efficiency_score := (jsRound (efficiencyScore * 10) : ℚ) / 10
        on_time_deliveries := final.onTimeDeliveries
        late_deliveries := final.lateDeliveries
        fuel_cost_breakdown :=
          { base_cost := jsRound final.totalFuelCost
            surcharge := jsRound final.totalSurcharge
            total := jsRound (final.totalFuelCost + final.totalSurcharge) }
        simulation_params := params }

/-- The `start_time` format check of `validateSimulation` (`simulation.js`
line 14), the regex `^([0-1]?[0-9]|2[0-3]):[0-5][0-9]$`: an optional-leading-
digit hour 0–23, a colon, and a two-digit minute 00–59. -/
def matchesStartTime (s : String) : Bool :=
  match s.data with
  | [h, c, m1, m2] =>
      h.isDigit && (c == ':') && decide ('0' ≤ m1 ∧ m1 ≤ '5') && m2.isDigit
  | [h1, h2, c, m1, m2] =>
      (((h1 == '0' || h1 == '1') && h2.isDigit)
        || (h1 == '2' && decide ('0' ≤ h2 ∧ h2 ≤ '3')))
      && (c == ':') && decide ('0' ≤ m1 ∧ m1 ≤ '5') && m2.isDigit
  | _ => false

/-- The `validateSimulation` middleware chain (`simulation.js` lines 12-16):
`available_drivers` an integer ≥ 1, `start_time` matching the `HH:MM` regex,
`max_hours_per_day` an integer in 1–24. -/
def validateSimulation (p : SimParams) : Bool :=
  decide (1 ≤ p.available_drivers) && matchesStartTime p.start_time
    && (decide (1 ≤ p.max_hours_per_day) && decide (p.max_hours_per_day ≤ 24))

/-- The possible responses of `POST /api/simulation/run`: HTTP 400 on
validation failure, HTTP 400 naming the driver count, HTTP 200 with the
result, HTTP 500 on an engine error. -/
inductive RunResponse where
  | validationFailed (message : String)
  | insufficientDrivers (message : String)
  | ok (result : SimulationResult)
  | serverError (message : String)
deriving DecidableEq, Repr

/-- The persistent data store visible to the simulation endpoint: the three
entity collections plus the SimulationResult history collection. -/
structure Store where
  drivers : List Driver
  routes : List Route
  orders : List Order
  history : List SimulationResult
deriving Repr

/-- The `POST /api/simulation/run` handler (`simulation.js` lines 128-167):
reject on validation errors, then reject if `available_drivers` exceeds the
stored driver count, otherwise run the engine and append the result to the
history collection.  Returns the response together with the updated store. -/
def postRun (store : Store) (params : SimParams) (picks : ℕ → ℕ) :
    RunResponse × Store :=
  if validateSimulation params then
    if params.available_drivers > (store.drivers.length : ℤ) then
      (RunResponse.insufficientDrivers ("Only " ++ toString store.drivers.length
        ++ " drivers available, but " ++ toString params.available_drivers ++ " requested"),
       store)
    else
      match runDeliverySimulation params store.drivers store.routes store.orders picks with
      | Except.error msg => (RunResponse.serverError ("Simulation failed: " ++ msg), store)
      | Except.ok result =>
          (RunResponse.ok result, { store with history := store.history ++ [result] })
  else
    (RunResponse.validationFailed "Validation failed", store)

/-- The KPI fields of a result: everything except the echoed
`simulation_params` (and the timestamp). -/
def kpis (r : SimulationResult) : ℤ × ℚ × ℕ × ℕ × FuelCostBreakdown :=
  (r.total_profit, r.efficiency_score, r.on_time_deliveries, r.late_deliveries,
   r.fuel_cost_breakdown)

/-- Extract `total_profit` from an engine outcome (0 on error); used to
discriminate two outcomes. -/
def profitOf (e : Except String SimulationResult) : ℤ :=
  match e with
  | Except.ok r => r.total_profit
  | Except.error _ => 0

/-- The base fuel cost one order contributes to the accumulated total:
`distance * 5` of its resolved route, 0 if the route is unresolvable. -/
def orderBaseFuel (routes : List Route) (o : Order) : ℚ :=
  match routeLookup routes o.route_id with
  | none => 0
  | some route => route.distance * 5

/-- The surcharge one order contributes: `distance * 2` if its resolved
route has High traffic, otherwise 0. -/
def orderSurcharge (routes : List Route) (o : Order) : ℚ :=
  match routeLookup routes o.route_id with
  | none => 0
  | some route => if route.traffic_level = TrafficLevel.High then route.distance * 2 else 0

/-! Concrete fixtures used to instantiate theorems with hypotheses and to
exhibit counterexamples. -/

/-- A driver whose most recent day has 5 hours: fatigue multiplier 1.0. -/
def freshDriver : Driver := ⟨"Fresh", 8, [8, 8, 8, 8, 8, 6, 5]⟩

/-- A driver whose most recent day has 10 hours: fatigue multiplier 0.7. -/
def tiredDriver : Driver := ⟨"Tired", 8, [8, 8, 8, 8, 8, 6, 10]⟩

/-- The route of the spec's end-to-end scenario. -/
def exRoute : Route := ⟨1, 5, TrafficLevel.Low, 30⟩

/-- Valid run parameters requesting one driver. -/
def exParams : SimParams := ⟨1, "09:00", 8⟩

/-- Valid run parameters requesting two drivers. -/
def exParams2 : SimParams := ⟨2, "09:00", 8⟩

/-- The order of the spec's end-to-end scenario, parametric in its value. -/
def exOrder (v : ℚ) : Order := ⟨1, v, 1, "01:00"⟩

/-- An order whose `route_id` 99 resolves to no route: a dangling reference. -/
def danglingOrder : Order := ⟨2, 800, 99, "02:00"⟩

/-- A High-traffic route of fractional distance 0.3 km (the validators allow
any distance ≥ 0.1). -/
def fracRoute : Route := ⟨1, 3/10, TrafficLevel.High, 30⟩

/-- A store with no drivers at all. -/
def emptyStore : Store := ⟨[], [], [], []⟩

/-- The accumulator the order loop starts from (`simulation.js` lines 51-55). -/
def startAcc : SimAcc := ⟨0, 0, 0, 0, 0, 0⟩

/-! ## Helper lemmas about the order loop -/

theorem processOrder_of_lookup_none {routes : List Route} {o : Order}
    (h : routeLookup routes o.route_id = none)
    (drivers : List Driver) (picks : ℕ → ℕ) (acc : SimAcc) :
    processOrder drivers routes picks acc o = acc := by
  unfold processOrder
  rw [h]

theorem processOrder_delivery_time (drivers : List Driver) (routes : List Route)
    (picks : ℕ → ℕ) (acc : SimAcc) (o : Order) (s : String) :
    processOrder drivers routes picks acc { o with delivery_time := s }
      = processOrder drivers routes picks acc o := by
  cases o
  rfl

theorem processOrder_counts (drivers : List Driver) (routes : List Route)
    (picks : ℕ → ℕ) (acc : SimAcc) (o : Order) :
    (processOrder drivers routes picks acc o).onTimeDeliveries
      + (processOrder drivers routes picks acc o).lateDeliveries
    = acc.onTimeDeliveries + acc.lateDeliveries
      + (if (routeLookup routes o.route_id).isSome then 1 else 0) := by
  unfold processOrder
  cases h : routeLookup routes o.route_id <;> simp only [h, Option.isSome_none,
    Option.isSome_some, if_true, if_false, Bool.false_eq_true]
  · omega
  · split <;> simp <;> omega

theorem processOrder_fuel (drivers : List Driver) (routes : List Route)
    (picks : ℕ → ℕ) (acc : SimAcc) (o : Order) :
    (processOrder drivers routes picks acc o).totalFuelCost
      = acc.totalFuelCost + orderBaseFuel routes o := by
  unfold processOrder orderBaseFuel
  cases h : routeLookup routes o.route_id <;> simp only [h]
  · simp
  · split <;> rfl

theorem processOrder_surcharge (drivers : List Driver) (routes : List Route)
    (picks : ℕ → ℕ) (acc : SimAcc) (o : Order) :
    (processOrder drivers routes picks acc o).totalSurcharge
      = acc.totalSurcharge + orderSurcharge routes o := by
  unfold processOrder orderSurcharge
  cases h : routeLookup routes o.route_id <;> simp only [h]
  · simp
  · split <;> rfl

theorem simFold_counts (drivers : List Driver) (routes : List Route) (picks : ℕ → ℕ) :
    ∀ (orders : List Order) (acc : SimAcc),
      (orders.foldl (processOrder drivers routes picks) acc).onTimeDeliveries
        + (orders.foldl (processOrder drivers routes picks) acc).lateDeliveries
      = acc.onTimeDeliveries + acc.lateDeliveries
        + (orders.filter (fun o => (routeLookup routes o.route_id).isSome)).length
  | [], acc => by simp
  | o :: rest, acc => by
    rw [List.foldl_cons, simFold_counts drivers routes picks rest, List.filter_cons]
    rw [processOrder_counts]
    cases h : routeLookup routes o.route_id <;> simp [h] <;> omega

theorem simFold_fuel (drivers : List Driver) (routes : List Route) (picks : ℕ → ℕ) :
    ∀ (orders : List Order) (acc : SimAcc),
      (orders.foldl (processOrder drivers routes picks) acc).totalFuelCost
        = acc.totalFuelCost + (orders.map (orderBaseFuel routes)).sum
  | [], acc => by simp
  | o :: rest, acc => by
    rw [List.foldl_cons, simFold_fuel drivers routes picks rest, processOrder_fuel,
      List.map_cons, List.sum_cons]
    ring

theorem simFold_surcharge (drivers : List Driver) (routes : List Route) (picks : ℕ → ℕ) :
    ∀ (orders : List Order) (acc : SimAcc),
      (orders.foldl (processOrder drivers routes picks) acc).totalSurcharge
        = acc.totalSurcharge + (orders.map (orderSurcharge routes)).sum
  | [], acc => by simp
  | o :: rest, acc => by
    rw [List.foldl_cons, simFold_surcharge drivers routes picks rest, processOrder_surcharge,
      List.map_cons, List.sum_cons]
    ring

theorem jsRound_intCast (a : ℤ) : jsRound (a : ℚ) = a := by
  unfold jsRound
  rw [add_comm, Int.floor_add_int]
  norm_num

theorem trafficLow_ne_high : TrafficLevel.Low ≠ TrafficLevel.High := fun h => nomatch h

/-! ## Claim theorems -/

/-- Claim C1: an order whose `route_id` resolves to no Route contributes
nothing — removing it from the order list leaves the engine's entire result
(total_profit, fuel_cost_breakdown, on_time_deliveries, late_deliveries,
efficiency_score) unchanged, for every store and every sequence of random
driver picks. -/
theorem claim_C1 (params : SimParams) (allDrivers : List Driver) (routes : List Route)
    (picks : ℕ → ℕ) (pre post : List Order) (o : Order)
    (h : routeLookup routes o.route_id = none) :
    runDeliverySimulation params allDrivers routes (pre ++ o :: post) picks
      = runDeliverySimulation params allDrivers routes (pre ++ post) picks := by
  unfold runDeliverySimulation
  simp only [List.foldl_append, List.foldl_cons, processOrder_of_lookup_none h]

/-- Witness for C1: a concrete run containing a dangling order (route_id 99,
no such route) equals the same run without it. -/
theorem claim_C1_witness :
    runDeliverySimulation exParams [freshDriver] [exRoute]
        ([exOrder 500] ++ danglingOrder :: []) (fun _ => 0)
      = runDeliverySimulation exParams [freshDriver] [exRoute]
        ([exOrder 500] ++ []) (fun _ => 0) :=
  claim_C1 exParams [freshDriver] [exRoute] (fun _ => 0) [exOrder 500] [] danglingOrder rfl

/-- Claim C2: in every successful run, whatever the random driver picks,
`on_time_deliveries + late_deliveries` equals the number of orders whose
`route_id` resolves to a stored Route, and `efficiency_score` equals
`on_time/(on_time+late)*100` rounded to one decimal, or 0 when no order was
processed. -/
theorem claim_C2 (params : SimParams) (allDrivers : List Driver) (routes : List Route)
    (orders : List Order) (picks : ℕ → ℕ) (r : SimulationResult)
    (h : runDeliverySimulation params allDrivers routes orders picks = Except.ok r) :
    r.on_time_deliveries + r.late_deliveries
        = (orders.filter (fun o => (routeLookup routes o.route_id).isSome)).length
    ∧ r.efficiency_score =
        (if r.on_time_deliveries + r.late_deliveries = 0 then 0
         else (jsRound (((r.on_time_deliveries : ℚ)
            / ((r.on_time_deliveries : ℚ) + (r.late_deliveries : ℚ))) * 100 * 10) : ℚ) / 10) := by
  simp only [runDeliverySimulation] at h
  split at h
  · exact absurd h (by simp)
  · injection h with h
    subst h
    constructor
    · simpa using simFold_counts (allDrivers.take params.available_drivers.toNat)
        routes picks orders
        { totalProfit := 0, onTimeDeliveries := 0, lateDeliveries := 0,
          totalFuelCost := 0, totalSurcharge := 0, pickIdx := 0 }
    · generalize (orders.foldl
        (processOrder (allDrivers.take params.available_drivers.toNat) routes picks)
        { totalProfit := 0, onTimeDeliveries := 0, lateDeliveries := 0,
          totalFuelCost := 0, totalSurcharge := 0, pickIdx := 0 }) = F
      dsimp only
      rcases Nat.eq_zero_or_pos (F.onTimeDeliveries + F.lateDeliveries) with hz | hp
      · have h1 : F.onTimeDeliveries + F.lateDeliveries = 0 := hz
        rw [if_pos h1, if_neg (by omega)]
        norm_num [jsRound]
      · rw [if_pos hp, if_neg (by omega : ¬(F.onTimeDeliveries + F.lateDeliveries = 0))]
        push_cast
        rfl

/-- Witness for C2: the end-to-end scenario run instantiates the claim, with
1 on-time + 0 late deliveries matching the single resolvable order. -/
theorem claim_C2_witness :
    (1 : ℕ) + 0 = ([exOrder 500].filter
        (fun o => (routeLookup [exRoute] o.route_id).isSome)).length
    ∧ (100 : ℚ) =
        (if (1 : ℕ) + 0 = 0 then 0
         else (jsRound ((((1 : ℕ) : ℚ) / (((1 : ℕ) : ℚ) + ((0 : ℕ) : ℚ))) * 100 * 10) : ℚ) / 10) :=
  claim_C2 exParams [freshDriver] [exRoute] [exOrder 500] (fun _ => 0)
    ⟨475, 100, 1, 0, ⟨25, 0, 25⟩, exParams⟩
    (by norm_num [runDeliverySimulation, exParams, exRoute, exOrder, freshDriver,
      processOrder, routeLookup, fatigueMultiplier, jsRound, Nat.mod_one, trafficLow_ne_high])

/-- Counterexample to C3 as stated: on a High-traffic route of distance
0.3 km (a value the validators accept), one processed order yields
`base_cost = round 1.5 = 2`, `surcharge = round 0.6 = 1`, but
`total = round 2.1 = 2 ≠ 2 + 1`, so `total` does not equal
`base_cost + surcharge`. -/
theorem claim_C3_counterexample :
    ¬ ∀ (r : SimulationResult),
        runDeliverySimulation exParams [freshDriver] [fracRoute] [exOrder 500] (fun _ => 0)
            = Except.ok r →
          r.fuel_cost_breakdown.total
            = r.fuel_cost_breakdown.base_cost + r.fuel_cost_breakdown.surcharge := by
  intro hall
  exact absurd (hall ⟨498, 100, 1, 0, ⟨2, 1, 2⟩, exParams⟩
    (by norm_num [runDeliverySimulation, exParams, fracRoute, exOrder, freshDriver,
      processOrder, routeLookup, fatigueMultiplier, jsRound, Nat.mod_one])) (by decide)

/-- Claim C3 (amended): `base_cost = round B`, `surcharge = round S` and
`total = round (B + S)`, where `B` is the accumulated `distance * 5` over
processed orders and `S` the accumulated `distance * 2` over processed
orders on High-traffic routes; `total = base_cost + surcharge` holds
whenever `B` and `S` are integral (in particular for integer distances),
but not in general, because the engine rounds the exact sum rather than
adding the two rounded fields. -/
theorem claim_C3 (params : SimParams) (allDrivers : List Driver) (routes : List Route)
    (orders : List Order) (picks : ℕ → ℕ) (r : SimulationResult)
    (h : runDeliverySimulation params allDrivers routes orders picks = Except.ok r) :
    r.fuel_cost_breakdown.base_cost = jsRound ((orders.map (orderBaseFuel routes)).sum)
    ∧ r.fuel_cost_breakdown.surcharge = jsRound ((orders.map (orderSurcharge routes)).sum)
    ∧ r.fuel_cost_breakdown.total = jsRound ((orders.map (orderBaseFuel routes)).sum
        + (orders.map (orderSurcharge routes)).sum)
    ∧ (∀ a b : ℤ, (orders.map (orderBaseFuel routes)).sum = (a : ℚ) →
        (orders.map (orderSurcharge routes)).sum = (b : ℚ) →
        r.fuel_cost_breakdown.total
          = r.fuel_cost_breakdown.base_cost + r.fuel_cost_breakdown.surcharge) := by
  simp only [runDeliverySimulation] at h
  split at h
  · exact absurd h (by simp)
  · injection h with h
    subst h
    have hfuel := simFold_fuel (allDrivers.take params.available_drivers.toNat)
      routes picks orders
      { totalProfit := 0, onTimeDeliveries := 0, lateDeliveries := 0,
        totalFuelCost := 0, totalSurcharge := 0, pickIdx := 0 }
    have hsur := simFold_surcharge (allDrivers.take params.available_drivers.toNat)
      routes picks orders
      { totalProfit := 0, onTimeDeliveries := 0, lateDeliveries := 0,
        totalFuelCost := 0, totalSurcharge := 0, pickIdx := 0 }
    simp only [zero_add] at hfuel hsur
    refine ⟨by simp [hfuel], by simp [hsur], by simp [hfuel, hsur], ?_⟩
    intro a b ha hb
    simp only [hfuel, hsur, ha, hb]
    rw [← Int.cast_add, jsRound_intCast, jsRound_intCast, jsRound_intCast]

/-- Witness for C3 (amended): the fractional-distance run instantiates the
rounding characterization with `B = 1.5`, `S = 0.6`. -/
theorem claim_C3_witness :
    (2 : ℤ) = jsRound (([exOrder 500].map (orderBaseFuel [fracRoute])).sum)
    ∧ (1 : ℤ) = jsRound (([exOrder 500].map (orderSurcharge [fracRoute])).sum)
    ∧ (2 : ℤ) = jsRound (([exOrder 500].map (orderBaseFuel [fracRoute])).sum
        + ([exOrder 500].map (orderSurcharge [fracRoute])).sum) := by
  have h := claim_C3 exParams [freshDriver] [fracRoute] [exOrder 500] (fun _ => 0)
    ⟨498, 100, 1, 0, ⟨2, 1, 2⟩, exParams⟩
    (by norm_num [runDeliverySimulation, exParams, fracRoute, exOrder, freshDriver,
      processOrder, routeLookup, fatigueMultiplier, jsRound, Nat.mod_one])
  exact ⟨h.1, h.2.1, h.2.2.1⟩

/-- Claim C4: the randomly picked driver's fatigue multiplier is 0.7 when the
last entry of `past_week_hours` exceeds 8 and 1.0 otherwise; a processed
order is counted on-time iff `base_time / multiplier ≤ base_time + 10`;
consequently a multiplier-1.0 pick is always on-time, and a multiplier-0.7
pick is late exactly when `base_time > 70/3`. -/
theorem claim_C4 (drivers : List Driver) (routes : List Route) (picks : ℕ → ℕ)
    (acc : SimAcc) (o : Order) (route : Route) (d : Driver)
    (hroute : routeLookup routes o.route_id = some route)
    (hd : d = drivers.getD (picks acc.pickIdx % drivers.length) default)
    (hne : d.past_week_hours ≠ []) :
    (fatigueMultiplier d = if d.past_week_hours.getLast hne > 8 then 7/10 else 1)
    ∧ ((processOrder drivers routes picks acc o).onTimeDeliveries = acc.onTimeDeliveries + 1
        ↔ route.base_time / fatigueMultiplier d ≤ route.base_time + 10)
    ∧ (fatigueMultiplier d = 1 →
        (processOrder drivers routes picks acc o).onTimeDeliveries = acc.onTimeDeliveries + 1)
    ∧ (fatigueMultiplier d = 7/10 →
        ((processOrder drivers routes picks acc o).lateDeliveries = acc.lateDeliveries + 1
          ↔ route.base_time > 70/3)) := by
  have hm : fatigueMultiplier d = if d.past_week_hours.getLast hne > 8 then 7/10 else 1 := by
    unfold fatigueMultiplier
    rw [List.getLastD_eq_getLast?, List.getLast?_eq_getLast _ hne]
    rfl
  have honTime : (processOrder drivers routes picks acc o).onTimeDeliveries
      = acc.onTimeDeliveries + 1
      ↔ route.base_time / fatigueMultiplier d ≤ route.base_time + 10 := by
    subst hd
    simp only [processOrder, hroute]
    split
    · next hc => exact iff_of_true rfl hc
    · next hc => exact iff_of_false (Ne.symm (Nat.succ_ne_self _)) hc
  have hlate : (processOrder drivers routes picks acc o).lateDeliveries
      = acc.lateDeliveries + 1
      ↔ ¬ (route.base_time / fatigueMultiplier d ≤ route.base_time + 10) := by
    subst hd
    simp only [processOrder, hroute]
    split
    · next hc => exact iff_of_false (Ne.symm (Nat.succ_ne_self _)) (not_not_intro hc)
    · next hc => exact iff_of_true rfl hc
  refine ⟨hm, honTime, ?_, ?_⟩
  · intro h1
    apply honTime.mpr
    rw [h1, div_one]
    linarith
  · intro h7
    rw [hlate, h7, div_le_iff₀ (by norm_num : (0:ℚ) < 7/10), not_le]
    constructor <;> intro <;> linarith

/-- Witness for C4: with the non-fatigued driver (multiplier 1.0) picked for
the scenario order, the on-time counter increments. -/
theorem claim_C4_witness :
    (processOrder [freshDriver] [exRoute] (fun _ => 0) startAcc (exOrder 500)).onTimeDeliveries
      = startAcc.onTimeDeliveries + 1 :=
  (claim_C4 [freshDriver] [exRoute] (fun _ => 0) startAcc (exOrder 500) exRoute freshDriver
    rfl rfl (by simp [freshDriver])).2.2.1 (by norm_num [fatigueMultiplier, freshDriver])

/-- Claim C5: the spec's end-to-end scenario.  One non-fatigued driver
(last day 5 hours), one route `{distance 5, Low, base_time 30}`, one order
on it: with `value_rs = 500` the run returns `on_time = 1`, `late = 0`,
`fuel = {25, 0, 25}`, `total_profit = 475`, `efficiency_score = 100.0`; with
`value_rs = 1500` (high-value bonus) it returns `total_profit = 1625`.
Holds for every pick oracle, as there is only one driver to pick. -/
theorem claim_C5 (picks : ℕ → ℕ) :
    runDeliverySimulation exParams [freshDriver] [exRoute] [exOrder 500] picks
      = Except.ok ⟨475, 100, 1, 0, ⟨25, 0, 25⟩, exParams⟩
    ∧ runDeliverySimulation exParams [freshDriver] [exRoute] [exOrder 1500] picks
      = Except.ok ⟨1625, 100, 1, 0, ⟨25, 0, 25⟩, exParams⟩ := by
  constructor <;>
    norm_num [runDeliverySimulation, exParams, exRoute, exOrder, freshDriver,
      processOrder, routeLookup, fatigueMultiplier, jsRound, Nat.mod_one, trafficLow_ne_high]

/-- Claim C6: a request that passes validation but asks for more drivers
than the store holds is answered with the client error naming the actual
count, and the store — in particular the SimulationResult history — is left
unchanged, so no KPI result is computed or persisted; independently, the
engine itself errors when the store returns fewer drivers than requested. -/
theorem claim_C6 :
    (∀ (store : Store) (params : SimParams) (picks : ℕ → ℕ),
      validateSimulation params = true →
      (store.drivers.length : ℤ) < params.available_drivers →
      postRun store params picks
        = (RunResponse.insufficientDrivers ("Only " ++ toString store.drivers.length
            ++ " drivers available, but " ++ toString params.available_drivers ++ " requested"),
           store))
    ∧ (∀ (params : SimParams) (allDrivers : List Driver) (routes : List Route)
        (orders : List Order) (picks : ℕ → ℕ),
        (allDrivers.length : ℤ) < params.available_drivers →
        runDeliverySimulation params allDrivers routes orders picks
          = Except.error ("Only " ++ toString allDrivers.length ++ " drivers available, but "
              ++ toString params.available_drivers ++ " requested")) := by
  constructor
  · intro store params picks hval hlt
    unfold postRun
    rw [if_pos hval, if_pos (by omega : params.available_drivers > (store.drivers.length : ℤ))]
  · intro params allDrivers routes orders picks hlt
    have htake : allDrivers.take params.available_drivers.toNat = allDrivers :=
      List.take_of_length_le (by omega)
    unfold runDeliverySimulation
    rw [htake, if_pos hlt]

/-- Witness for C6: requesting 2 drivers from an empty store yields the
insufficient-drivers response and leaves the empty store (with its empty
history) untouched. -/
theorem claim_C6_witness :
    postRun emptyStore ⟨2, "09:00", 8⟩ (fun _ => 0)
      = (RunResponse.insufficientDrivers "Only 0 drivers available, but 2 requested", emptyStore) := by
  have h := claim_C6.1 emptyStore ⟨2, "09:00", 8⟩ (fun _ => 0)
    (by rfl) (by norm_num [emptyStore])
  simpa using h

/-- Claim C7: with the store data and the pick oracle held fixed, the KPI
fields of the result (total_profit, efficiency_score, delivery counters,
fuel_cost_breakdown) are unchanged under any change of `start_time`,
`max_hours_per_day`, or any order's `delivery_time` — these inputs are
validated and echoed but never consulted by the arithmetic. -/
theorem claim_C7 (n : ℤ) (st1 st2 : String) (mh1 mh2 : ℤ) (allDrivers : List Driver)
    (routes : List Route) (orders : List Order) (newTimes : Order → String) (picks : ℕ → ℕ) :
    (runDeliverySimulation ⟨n, st1, mh1⟩ allDrivers routes
        (orders.map (fun o => { o with delivery_time := newTimes o })) picks).map kpis
      = (runDeliverySimulation ⟨n, st2, mh2⟩ allDrivers routes orders picks).map kpis := by
  simp only [runDeliverySimulation]
  rw [List.foldl_map]
  rw [List.foldl_ext _ (processOrder (allDrivers.take n.toNat) routes picks) _
    (fun a o _ => processOrder_delivery_time (allDrivers.take n.toNat) routes picks a o
      (newTimes o))]
  split <;> rfl

/-- Claim C8: the engine is not deterministic — with the roster, routes,
orders and params all fixed (one fresh driver, one fatigued driver, a route
with `base_time = 30 > 70/3`), two pick sequences produce different results
(total_profit 490 vs 440, and opposite delivery counters). -/
theorem claim_C8 :
    runDeliverySimulation exParams2 [freshDriver, tiredDriver]
        [⟨1, 2, TrafficLevel.Low, 30⟩] [exOrder 500] (fun _ => 0)
      ≠ runDeliverySimulation exParams2 [freshDriver, tiredDriver]
        [⟨1, 2, TrafficLevel.Low, 30⟩] [exOrder 500] (fun _ => 1) := by
  intro h
  have h0 : profitOf (runDeliverySimulation exParams2 [freshDriver, tiredDriver]
      [⟨1, 2, TrafficLevel.Low, 30⟩] [exOrder 500] (fun _ => 0)) = 490 := by
    norm_num [runDeliverySimulation, profitOf, exParams2, exOrder, freshDriver, tiredDriver,
      processOrder, routeLookup, fatigueMultiplier, jsRound, trafficLow_ne_high,
      Int.toNat_ofNat, List.getLast?, List.getLast,
      (show (1 : ℕ) % Int.toNat 2 = 1 from rfl), (show (0 : ℕ) % Int.toNat 2 = 0 from rfl)]
  have h1 : profitOf (runDeliverySimulation exParams2 [freshDriver, tiredDriver]
      [⟨1, 2, TrafficLevel.Low, 30⟩] [exOrder 500] (fun _ => 1)) = 440 := by
    norm_num [runDeliverySimulation, profitOf, exParams2, exOrder, freshDriver, tiredDriver,
      processOrder, routeLookup, fatigueMultiplier, jsRound, trafficLow_ne_high,
      Int.toNat_ofNat, List.getLast?, List.getLast,
      (show (1 : ℕ) % Int.toNat 2 = 1 from rfl), (show (0 : ℕ) % Int.toNat 2 = 0 from rfl)]
  rw [h, h1] at h0
  norm_num at h0

theorem validateSimulation_eq_false_iff (p : SimParams) :
    validateSimulation p = false
      ↔ (p.available_drivers < 1 ∨ matchesStartTime p.start_time = false
          ∨ p.max_hours_per_day < 1 ∨ 24 < p.max_hours_per_day) := by
  cases hm : matchesStartTime p.start_time <;> simp [validateSimulation, hm] <;> omega

/-- Claim C9: `POST /run` answers with the validation-failure 400 response
and leaves the store untouched exactly when `available_drivers < 1`, or
`start_time` fails the `HH:MM` check, or `max_hours_per_day` is outside
1–24; a request with all three in range passes validation.  The boundary
conjuncts pin the `HH:MM` check to hours 0–23 and minutes 00–59. -/
theorem claim_C9 (store : Store) (params : SimParams) (picks : ℕ → ℕ) :
    (postRun store params picks = (RunResponse.validationFailed "Validation failed", store)
      ↔ (params.available_drivers < 1 ∨ matchesStartTime params.start_time = false
          ∨ params.max_hours_per_day < 1 ∨ 24 < params.max_hours_per_day))
    ∧ matchesStartTime "00:00" = true
    ∧ matchesStartTime "23:59" = true
    ∧ matchesStartTime "9:30" = true
    ∧ matchesStartTime "24:00" = false
    ∧ matchesStartTime "12:60" = false := by
  refine ⟨?_, by decide, by decide, by decide, by decide, by decide⟩
  rw [← validateSimulation_eq_false_iff]
  constructor
  · intro hEq
    by_contra hfalse
    have hv : validateSimulation params = true := by
      cases h : validateSimulation params
      · exact absurd h hfalse
      · rfl
    unfold postRun at hEq
    rw [if_pos hv] at hEq
    split at hEq
    · simp at hEq
    · split at hEq <;> simp at hEq
  · intro hv
    unfold postRun
    rw [if_neg (by simp [hv])]

/-- Claim C10: `total_profit` is not clamped at zero — one late order whose
fuel cost (50) plus the flat 50-unit late penalty exceeds its value (1)
yields `total_profit = -99`, and the result type puts no lower bound on the
field. -/
theorem claim_C10 :
    (runDeliverySimulation exParams [tiredDriver] [⟨1, 10, TrafficLevel.Low, 30⟩]
        [exOrder 1] (fun _ => 0)).map SimulationResult.total_profit
      = Except.ok (-99) ∧ (-99 : ℤ) < 0 := by
  refine ⟨?_, by norm_num⟩
  norm_num [runDeliverySimulation, exParams, exOrder, tiredDriver, processOrder,
    routeLookup, fatigueMultiplier, jsRound, Nat.mod_one, trafficLow_ne_high, Except.map]

end GreenCart
